import Mathlib

/-!
Verification development for the avalanche-network-runner local network
orchestrator.

The repository ships an interface sketch (src/network/network.go) and the
conformance test suite of the local implementation (package local).  The
local implementation itself (localNetwork, its validator, name generation
and the health aggregator) is not part of the sources, so those parts are
modelled from the specification, with the shipped tests fixing the
observable behaviour.  Byte blobs (genesis, staking key, staking
certificate) are lists of naturals; Go errors are an explicit error type.
-/

namespace Anr

/-- Opaque byte blobs (genesis, staking key/cert) are modelled as lists of
byte values. -/
abbrev Bytes := List Nat

/-- Modelled from the spec: the implementation-specific configuration payload
of a node is a dynamically typed field; the only recognized concrete shape is
the local NodeConfig carrying a binary path.  The payload can be absent (a
nil interface value) or hold an unrecognized value (for example a string, as
in TestImplSpecificConfigInterface). -/
inductive ImplSpecificConfig where
  | absent : ImplSpecificConfig
  | localNodeConfig (binaryPath : String) : ImplSpecificConfig
  | unrecognized (description : String) : ImplSpecificConfig
deriving DecidableEq, Repr

/-- Configuration of a single node (node.Config): optional name (empty means
auto-generate), beacon flag, staking key and certificate blobs, and the
implementation-specific payload. -/
structure NodeConfig where
  name : String
  isBeacon : Bool
  stakingKey : Bytes
  stakingCert : Bytes
  implSpecificConfig : ImplSpecificConfig
deriving DecidableEq, Repr

/-- Configuration of a whole network (network.Config): genesis blob, log
level, display name, and the ordered list of node configurations. -/
structure NetworkConfig where
  genesis : Bytes
  logLevel : String
  name : String
  nodeConfigs : List NodeConfig
deriving DecidableEq, Repr

/-- Error taxonomy of the orchestrator.  stopped is the distinguished
sentinel (network.ErrStopped) compared against by value in the tests. -/
inductive NetErr where
  | validation (msg : String) : NetErr
  | notFound (name : String) : NetErr
  | stopped : NetErr
  | startFailed (msg : String) : NetErr
  | healthTimeout : NetErr
deriving DecidableEq, Repr

/-- Boolean check that an Except value is a success. -/
def exceptIsOk {α β : Type} : Except α β → Bool
  | Except.ok _ => true
  | Except.error _ => false

/-- True when the payload is of the recognized concrete type (the local
NodeConfig with a binary path). -/
def recognizedPayload : ImplSpecificConfig → Bool
  | ImplSpecificConfig.localNodeConfig _ => true
  | _ => false

/-- True when exactly one of StakingKey/StakingCert is set. -/
def oneSidedStaking (c : NodeConfig) : Bool :=
  (!c.stakingKey.isEmpty && c.stakingCert.isEmpty)
    || (!c.stakingCert.isEmpty && c.stakingKey.isEmpty)

/-- Modelled from the spec: the node identity is derived from the staking
certificate and derivation fails on malformed bytes (the test case named
empty nodeID feeds garbage certificate bytes and expects an error).  A
well-formed certificate blob is modelled as one that is either empty (key
material is then generated) or begins with the PEM marker byte 45. -/
def certWellFormed (b : Bytes) : Bool :=
  b.isEmpty || b.head? == some 45

/-- Modelled from the spec: per-node validation rules shared by construction
and AddNode: the implementation-specific payload must be recognized, staking
key and certificate must be both-or-neither, and a given staking certificate
must support identity derivation. -/
def nodeConfigError (c : NodeConfig) : Option String :=
  if !recognizedPayload c.implSpecificConfig then
    some "impl-specific config missing or not of the recognized type"
  else if oneSidedStaking c then
    some "staking key and staking cert must both be set or both be empty"
  else if !certWellFormed c.stakingCert then
    some "could not derive node ID from staking cert"
  else none

/-- True when two node configurations share the same non-empty name. -/
def hasDupNonemptyNames : List NodeConfig → Bool
  | [] => false
  | c :: rest =>
    (!c.name.isEmpty && rest.any (fun d => d.name == c.name))
      || hasDupNonemptyNames rest

/-- Modelled from the spec: the Config Validator, run fully before any
process is spawned.  It rejects an empty genesis, any invalid node
configuration, a non-empty node list without a beacon node, and duplicate
non-empty names.  The shipped tests fix the empty-list behaviour:
TestNewNetworkEmpty constructs a network with no node configurations (and
hence no beacon) successfully, so the beacon rule only applies to non-empty
node lists. -/
def validateConfig (cfg : NetworkConfig) : Option String :=
  if cfg.genesis.isEmpty then some "genesis field is empty"
  else if cfg.nodeConfigs.any (fun c => (nodeConfigError c).isSome) then
    some "invalid node config"
  else if !cfg.nodeConfigs.isEmpty && !cfg.nodeConfigs.any (fun c => c.isBeacon) then
    some "no beacon node given"
  else if hasDupNonemptyNames cfg.nodeConfigs then
    some "duplicate node name"
  else none

/-- Concatenation of a list of strings, used to manufacture a string longer
than every element of the list. -/
def concatAll (l : List String) : String :=
  l.foldr (fun a b => a ++ b) ""

/-- Modelled from the spec: counter-suffixed name generation.  Candidates
node0, node1, ... are tried in order, skipping taken names; if the fuel is
exhausted the concatenation of all taken names (extended by one character,
hence fresh by length) is used. -/
def freshNameAux (taken : List String) : Nat → Nat → String
  | 0, _ => concatAll taken ++ "*"
  | fuel + 1, ctr =>
    let cand := "node" ++ toString ctr
    if cand ∈ taken then freshNameAux taken fuel (ctr + 1) else cand

/-- Modelled from the spec: synthesize a name guaranteed unique among the
taken names. -/
def freshName (taken : List String) : String :=
  freshNameAux taken (taken.length + 1) 0

/-- The non-empty names given explicitly by the caller. -/
def givenNames (cfgs : List NodeConfig) : List String :=
  (cfgs.map (fun c => c.name)).filter (fun s => !s.isEmpty)

/-- Modelled from the spec: the Node Identity Resolver walks the node
configurations in order, keeps every given non-empty name, and synthesizes a
fresh name for every empty one, avoiding both the given names of the batch
and the names generated so far. -/
def resolveNamesAux (taken : List String) : List NodeConfig → List String
  | [] => []
  | c :: rest =>
    if c.name.isEmpty then
      let nm := freshName taken
      nm :: resolveNamesAux (nm :: taken) rest
    else
      c.name :: resolveNamesAux taken rest

/-- Modelled from the spec: resolve a name for every node configuration of a
batch. -/
def resolveAll (cfgs : List NodeConfig) : List String :=
  resolveNamesAux (givenNames cfgs) cfgs

/-- The health capability of a node's API client: the outcome of the
health-check call at each polling tick (a transient error, or a healthy
verdict). -/
abbrev HealthFun := Nat → Except String Bool

/-- The API-client factory (api.NewAPIClientF): yields the client bound to a
node, modelled by its health capability.  Client construction itself cannot
fail. -/
abbrev ApiF := NodeConfig → HealthFun

/-- The process factory combined with starting the created process
(NewNodeProcessF followed by Start): either the process is running, or an
error message is reported. -/
abbrev ProcF := NodeConfig → Except String Unit

/-- Modelled from the spec: the in-memory representation of one managed
node: its resolved unique name, its configuration (carrying the beacon flag
and the staking certificate the identity derives from), and the health
capability of its API client. -/
structure NodeHandle where
  name : String
  config : NodeConfig
  health : HealthFun

/-- Modelled from the spec: the orchestrator state: the stored genesis, the
name-keyed collection of node handles (kept in insertion order), and the
lifecycle flag. -/
structure LocalNetwork where
  genesis : Bytes
  nodes : List NodeHandle
  stopped : Bool

/-- A freshly constructed network with no nodes. -/
def emptyNet (genesis : Bytes) : LocalNetwork :=
  { genesis := genesis, nodes := [], stopped := false }

/-- The names currently present in the network. -/
def nodeNames (net : LocalNetwork) : List String :=
  net.nodes.map (fun h => h.name)

/-- Modelled from the spec: GetNode fails with the stopped sentinel once the
network is stopped, with a not-found error for an absent name, and returns
the handle otherwise. -/
def getNode (net : LocalNetwork) (nm : String) : Except NetErr NodeHandle :=
  if net.stopped then Except.error NetErr.stopped
  else
    match net.nodes.find? (fun h => h.name == nm) with
    | some h => Except.ok h
    | none => Except.error (NetErr.notFound nm)

/-- Modelled from the spec: GetNodesNames returns the current names, or the
stopped sentinel once the network is stopped. -/
def getNodesNames (net : LocalNetwork) : Except NetErr (List String) :=
  if net.stopped then Except.error NetErr.stopped
  else Except.ok (nodeNames net)

/-- Modelled from the spec: AddNode validates the single configuration with
the shared per-node rules, resolves a name (generating a fresh one when the
given name is empty), rejects a colliding name, constructs the API client
and starts the process via the factories, and only then inserts the new
handle.  Every failure leaves the network unchanged. -/
def addNode (net : LocalNetwork) (apiF : ApiF) (procF : ProcF) (c : NodeConfig) :
    Except NetErr (LocalNetwork × NodeHandle) :=
  if net.stopped then Except.error NetErr.stopped
  else
    match nodeConfigError c with
    | some m => Except.error (NetErr.validation m)
    | none =>
      let nm := if c.name.isEmpty then freshName (nodeNames net) else c.name
      if nm ∈ nodeNames net then
        Except.error (NetErr.validation "duplicate node name")
      else
        match procF c with
        | Except.error m => Except.error (NetErr.startFailed m)
        | Except.ok _ =>
          let h : NodeHandle := { name := nm, config := c, health := apiF c }
          Except.ok ({ net with nodes := net.nodes ++ [h] }, h)

/-- AddNode projected on the resulting network state. -/
def addNodeNet (net : LocalNetwork) (apiF : ApiF) (procF : ProcF) (c : NodeConfig) :
    Except NetErr LocalNetwork :=
  (addNode net apiF procF c).map Prod.fst

/-- Modelled from the spec: RemoveNode fails with the stopped sentinel once
the network is stopped, with a not-found error for an absent name, and
otherwise stops the node and removes its handle from the collection. -/
def removeNode (net : LocalNetwork) (nm : String) : Except NetErr LocalNetwork :=
  if net.stopped then Except.error NetErr.stopped
  else if net.nodes.any (fun h => h.name == nm) then
    Except.ok { net with nodes := net.nodes.filter (fun h => h.name != nm) }
  else Except.error (NetErr.notFound nm)

/-- Modelled from the spec: Stop transitions Running to Stopped exactly
once, destroying all remaining handles; a second call fails with the stopped
sentinel. -/
def stop (net : LocalNetwork) : Except NetErr LocalNetwork :=
  if net.stopped then Except.error NetErr.stopped
  else Except.ok { net with nodes := [], stopped := true }

/-- Modelled from the spec: bulk construction walks the already validated
and name-resolved configurations in order; for each it constructs the API
client, hands the caller's NodeConfig unchanged to the process factory, and
aborts the whole construction on a start failure.  The second component
records, in order, every NodeConfig for which a process start was
attempted. -/
def buildNodes (apiF : ApiF) (procF : ProcF) (net : LocalNetwork) :
    List (NodeConfig × String) → Except NetErr LocalNetwork × List NodeConfig
  | [] => (Except.ok net, [])
  | (c, nm) :: rest =>
    match procF c with
    | Except.error m => (Except.error (NetErr.startFailed m), [c])
    | Except.ok _ =>
      let h : NodeHandle := { name := nm, config := c, health := apiF c }
      let r := buildNodes apiF procF { net with nodes := net.nodes ++ [h] } rest
      (r.1, c :: r.2)

/-- Modelled from the spec: NewNetwork runs the Config Validator fully, then
the Node Identity Resolver, then bulk construction; any failure yields an
error and no network object.  The second component is the trace of
NodeConfig values handed to the process factory (empty when validation
fails, so no process is started on an invalid configuration). -/
def NewNetwork (cfg : NetworkConfig) (apiF : ApiF) (procF : ProcF) :
    Except NetErr LocalNetwork × List NodeConfig :=
  match validateConfig cfg with
  | some m => (Except.error (NetErr.validation m), [])
  | none =>
    buildNodes apiF procF (emptyNet cfg.genesis)
      (cfg.nodeConfigs.zip (resolveAll cfg.nodeConfigs))

/-- True when every node reports healthy at tick t (a transient per-poll
error counts as not yet healthy). -/
def allHealthyAt (net : LocalNetwork) (t : Nat) : Bool :=
  net.nodes.all fun h =>
    match h.health t with
    | Except.ok true => true
    | _ => false

/-- Modelled from the spec: the polling loop of the health aggregator.  At
each tick it fails with the stopped sentinel if the network stopped,
succeeds when all nodes are simultaneously healthy, and otherwise retries on
the next tick (swallowing per-poll errors); when the tick budget derived
from the timeout is exhausted it fails with the timeout error. -/
def awaitHealthyAux (net : LocalNetwork) : Nat → Nat → Except NetErr Unit
  | 0, _ => Except.error NetErr.healthTimeout
  | fuel + 1, t =>
    if net.stopped then Except.error NetErr.stopped
    else if allHealthyAt net t then Except.ok ()
    else awaitHealthyAux net fuel (t + 1)

/-- Modelled from the spec: AwaitNetworkHealthy fails immediately with the
stopped sentinel on a stopped network and otherwise polls for at most the
number of ticks the timeout allows. -/
def awaitNetworkHealthy (net : LocalNetwork) (ticks : Nat) : Except NetErr Unit :=
  if net.stopped then Except.error NetErr.stopped
  else awaitHealthyAux net ticks 0

/-- The network.Config of the interface sketch in src/network/network.go. -/
structure SketchConfig where
  nodeConfigs : List NodeConfig

/-- Shallow embedding of the NewNetwork function of the interface sketch in
src/network/network.go: it ignores both arguments and returns a nil network
pointer and a nil error.  Option Unit models the nullable pointer to the
Network interface value, Option String the Go error. -/
def sketchNewNetwork (_cfg : SketchConfig) (_kinds : List (Nat × String)) :
    Option Unit × Option String :=
  (none, none)

/-- The validation-failure condition exactly as claim C2 words it: empty
genesis, a payload absent or not of the recognized concrete type, exactly
one of StakingKey/StakingCert set, no NodeConfig with IsBeacon true, or two
NodeConfig entries sharing the same non-empty name. -/
def claimedRuleViolation (cfg : NetworkConfig) : Bool :=
  cfg.genesis.isEmpty
    || cfg.nodeConfigs.any (fun c => !recognizedPayload c.implSpecificConfig)
    || cfg.nodeConfigs.any oneSidedStaking
    || !cfg.nodeConfigs.any (fun c => c.isBeacon)
    || hasDupNonemptyNames cfg.nodeConfigs

/-- The amended validation-failure condition: as claimed, except that the
missing-beacon rule only applies when the node list is non-empty. -/
def amendedRuleViolation (cfg : NetworkConfig) : Bool :=
  cfg.genesis.isEmpty
    || cfg.nodeConfigs.any (fun c => !recognizedPayload c.implSpecificConfig)
    || cfg.nodeConfigs.any oneSidedStaking
    || (!cfg.nodeConfigs.isEmpty && !cfg.nodeConfigs.any (fun c => c.isBeacon))
    || hasDupNonemptyNames cfg.nodeConfigs

/-- The node handle created for a resolved configuration/name pair. -/
def mkHandle (apiF : ApiF) (p : NodeConfig × String) : NodeHandle :=
  { name := p.2, config := p.1, health := apiF p.1 }

/-- The network state produced by a successful bulk construction. -/
def builtNet (cfg : NetworkConfig) (apiF : ApiF) : LocalNetwork :=
  { genesis := cfg.genesis,
    nodes := (cfg.nodeConfigs.zip (resolveAll cfg.nodeConfigs)).map (mkHandle apiF),
    stopped := false }

/-- The network state left behind by a successful RemoveNode of a name. -/
def filteredNet (net : LocalNetwork) (nm : String) : LocalNetwork :=
  { net with nodes := net.nodes.filter (fun h => h.name != nm) }

/-! Concrete fixtures mirroring the test suite's mock factories and default
three-node configuration. -/

/-- A process factory that always creates and starts successfully. -/
def procOk : ProcF := fun _ => Except.ok ()

/-- A process factory whose Start always fails. -/
def procFailStart : ProcF := fun _ => Except.error "Start failed"

/-- An API-client factory whose health call always reports healthy. -/
def apiHealthy : ApiF := fun _ _ => Except.ok true

/-- An API-client factory whose health call always reports unhealthy. -/
def apiUnhealthy : ApiF := fun _ _ => Except.ok false

/-- Well-formed staking certificate blobs (leading PEM marker byte). -/
def certA : Bytes := [45, 1]

/-- Second well-formed staking certificate blob. -/
def certB : Bytes := [45, 2]

/-- Third well-formed staking certificate blob. -/
def certC : Bytes := [45, 3]

/-- Valid beacon node configuration named node0. -/
def cfg0 : NodeConfig :=
  { name := "node0", isBeacon := true, stakingKey := [1], stakingCert := certA,
    implSpecificConfig := ImplSpecificConfig.localNodeConfig "pepito" }

/-- Valid node configuration named node1. -/
def cfg1 : NodeConfig :=
  { name := "node1", isBeacon := false, stakingKey := [2], stakingCert := certB,
    implSpecificConfig := ImplSpecificConfig.localNodeConfig "pepito" }

/-- Valid node configuration named node2. -/
def cfg2 : NodeConfig :=
  { name := "node2", isBeacon := false, stakingKey := [3], stakingCert := certC,
    implSpecificConfig := ImplSpecificConfig.localNodeConfig "pepito" }

/-- The default three-node network configuration of the test fixtures. -/
def netCfg3 : NetworkConfig :=
  { genesis := [7], logLevel := "DEBUG", name := "My Network",
    nodeConfigs := [cfg0, cfg1, cfg2] }

/-- The three-node configuration with all names left empty. -/
def netCfgE : NetworkConfig :=
  { genesis := [7], logLevel := "DEBUG", name := "My Network",
    nodeConfigs := [{ cfg0 with name := "" }, { cfg1 with name := "" },
                    { cfg2 with name := "" }] }

/-- A running one-node network whose only node always reports unhealthy. -/
def netUnhealthy1 : LocalNetwork :=
  { genesis := [1], nodes := [mkHandle apiUnhealthy (cfg0, "node0")], stopped := false }

/-- A running one-node network whose only node always reports healthy. -/
def netOne : LocalNetwork :=
  { genesis := [1], nodes := [mkHandle apiHealthy (cfg0, "node0")], stopped := false }

/-- Network state after adding one named node to an empty network. -/
def stage1 (g : Bytes) (c0 : NodeConfig) (apiF : ApiF) : LocalNetwork :=
  { genesis := g, nodes := [mkHandle apiF (c0, c0.name)], stopped := false }

/-- Network state after adding two named nodes to an empty network. -/
def stage2 (g : Bytes) (c0 c1 : NodeConfig) (apiF : ApiF) : LocalNetwork :=
  { genesis := g,
    nodes := [mkHandle apiF (c0, c0.name), mkHandle apiF (c1, c1.name)],
    stopped := false }

/-- Network state after adding three named nodes to an empty network. -/
def stage3 (g : Bytes) (c0 c1 c2 : NodeConfig) (apiF : ApiF) : LocalNetwork :=
  { genesis := g,
    nodes := [mkHandle apiF (c0, c0.name), mkHandle apiF (c1, c1.name),
              mkHandle apiF (c2, c2.name)],
    stopped := false }

/-- Network state after removing the first of the three nodes again. -/
def stage4 (g : Bytes) (c1 c2 : NodeConfig) (apiF : ApiF) : LocalNetwork :=
  { genesis := g,
    nodes := [mkHandle apiF (c1, c1.name), mkHandle apiF (c2, c2.name)],
    stopped := false }

/-- Network state after removing the first two of the three nodes again. -/
def stage5 (g : Bytes) (c2 : NodeConfig) (apiF : ApiF) : LocalNetwork :=
  { genesis := g, nodes := [mkHandle apiF (c2, c2.name)], stopped := false }

/-! Helper lemmas about name generation and resolution. -/

theorem concatAll_cons (a : String) (t : List String) :
    concatAll (a :: t) = a ++ concatAll t := rfl

theorem length_le_concatAll {s : String} {l : List String} (h : s ∈ l) :
    s.length ≤ (concatAll l).length := by
  induction l with
  | nil => cases h
  | cons a t ih =>
    rw [concatAll_cons, String.length_append]
    rcases List.mem_cons.mp h with h1 | h2
    · subst h1; omega
    · have := ih h2; omega

theorem fallback_not_mem (taken : List String) : concatAll taken ++ "*" ∉ taken := by
  intro h
  have h1 := length_le_concatAll h
  rw [String.length_append] at h1
  have h2 : ("*" : String).length = 1 := rfl
  omega

theorem freshNameAux_not_mem (taken : List String) (fuel : Nat) :
    ∀ ctr, freshNameAux taken fuel ctr ∉ taken := by
  induction fuel with
  | zero => intro _; exact fallback_not_mem taken
  | succ n ih =>
    intro ctr
    simp only [freshNameAux]
    split
    · exact ih (ctr + 1)
    · next h => exact h

theorem freshName_not_mem (taken : List String) : freshName taken ∉ taken :=
  freshNameAux_not_mem taken (taken.length + 1) 0

theorem resolveNamesAux_length (cfgs : List NodeConfig) :
    ∀ taken, (resolveNamesAux taken cfgs).length = cfgs.length := by
  induction cfgs with
  | nil => intro _; rfl
  | cons c rest ih =>
    intro taken
    simp only [resolveNamesAux]
    split
    · simp [ih]
    · simp [ih]

theorem resolveAll_length (cfgs : List NodeConfig) :
    (resolveAll cfgs).length = cfgs.length :=
  resolveNamesAux_length cfgs (givenNames cfgs)

theorem resolveNamesAux_given_mem {c : NodeConfig} (hn : c.name.isEmpty = false) :
    ∀ (cfgs : List NodeConfig), c ∈ cfgs →
      ∀ taken, c.name ∈ resolveNamesAux taken cfgs := by
  intro cfgs
  induction cfgs with
  | nil => intro hc; cases hc
  | cons a rest ih =>
    intro hc taken
    simp only [resolveNamesAux]
    rcases List.mem_cons.mp hc with h1 | h2
    · subst h1
      simp [hn]
    · split
      · exact List.mem_cons_of_mem _ (ih h2 _)
      · exact List.mem_cons_of_mem _ (ih h2 _)

theorem resolveNamesAux_allEmpty (cfgs : List NodeConfig)
    (he : ∀ c ∈ cfgs, c.name.isEmpty = true) :
    ∀ taken, (resolveNamesAux taken cfgs).Nodup ∧
      ∀ x ∈ resolveNamesAux taken cfgs, x ∉ taken := by
  induction cfgs with
  | nil =>
    intro taken
    exact ⟨List.nodup_nil, fun x hx => absurd hx (List.not_mem_nil x)⟩
  | cons a rest ih =>
    intro taken
    have ha : a.name.isEmpty = true := he a (List.mem_cons_self a rest)
    have hrest := ih (fun c hc => he c (List.mem_cons_of_mem _ hc)) (freshName taken :: taken)
    simp only [resolveNamesAux, ha, if_pos]
    constructor
    · refine List.nodup_cons.mpr ⟨?_, hrest.1⟩
      intro hmem
      exact (hrest.2 _ hmem) (List.mem_cons_self _ _)
    · intro x hx
      rcases List.mem_cons.mp hx with h1 | h2
      · subst h1; exact freshName_not_mem taken
      · intro hxt
        exact (hrest.2 x h2) (List.mem_cons_of_mem _ hxt)

/-! Helper lemmas about bulk construction. -/

theorem buildNodes_all_ok (apiF : ApiF) (procF : ProcF)
    (hp : ∀ c, procF c = Except.ok ()) :
    ∀ (pairs : List (NodeConfig × String)) (net : LocalNetwork),
      buildNodes apiF procF net pairs =
        (Except.ok { net with nodes := net.nodes ++ pairs.map (mkHandle apiF) },
         pairs.map Prod.fst) := by
  intro pairs
  induction pairs with
  | nil => intro net; simp [buildNodes]
  | cons p rest ih =>
    intro net
    obtain ⟨c, nm⟩ := p
    simp only [buildNodes, hp c]
    rw [ih]
    simp [mkHandle]

theorem newNetwork_ok (cfg : NetworkConfig) (apiF : ApiF) (procF : ProcF)
    (hv : validateConfig cfg = none) (hp : ∀ c, procF c = Except.ok ()) :
    NewNetwork cfg apiF procF = (Except.ok (builtNet cfg apiF), cfg.nodeConfigs) := by
  have hlen : (resolveAll cfg.nodeConfigs).length = cfg.nodeConfigs.length :=
    resolveAll_length cfg.nodeConfigs
  simp only [NewNetwork, hv]
  rw [buildNodes_all_ok apiF procF hp]
  rw [List.map_fst_zip _ _ (le_of_eq hlen.symm)]
  simp [emptyNet, builtNet]

theorem nodeNames_builtNet (cfg : NetworkConfig) (apiF : ApiF) :
    nodeNames (builtNet cfg apiF) = resolveAll cfg.nodeConfigs := by
  have hlen : (resolveAll cfg.nodeConfigs).length ≤ cfg.nodeConfigs.length :=
    le_of_eq (resolveAll_length cfg.nodeConfigs)
  simp only [builtNet, nodeNames, List.map_map]
  exact List.map_snd_zip _ _ hlen

/-! Helper lemmas about the membership operations. -/

theorem getNode_mem_isOk (net : LocalNetwork) (nm : String)
    (hs : net.stopped = false) (hm : nm ∈ nodeNames net) :
    exceptIsOk (getNode net nm) = true := by
  simp only [getNode, hs, Bool.false_eq_true, if_false]
  obtain ⟨x, hx, hname⟩ := List.mem_map.mp hm
  have hsome : (net.nodes.find? (fun h => h.name == nm)).isSome := by
    rw [List.find?_isSome]
    exact ⟨x, hx, by simp [hname]⟩
  obtain ⟨y, hy⟩ := Option.isSome_iff_exists.mp hsome
  rw [hy]
  rfl

theorem getNode_not_mem (net : LocalNetwork) (nm : String)
    (hs : net.stopped = false) (hm : nm ∉ nodeNames net) :
    getNode net nm = Except.error (NetErr.notFound nm) := by
  simp only [getNode, hs, Bool.false_eq_true, if_false]
  have hnone : net.nodes.find? (fun h => h.name == nm) = none := by
    rw [List.find?_eq_none]
    intro x hx
    simp only [beq_iff_eq]
    intro he
    exact hm (List.mem_map.mpr ⟨x, hx, he⟩)
  rw [hnone]

theorem removeNode_not_mem (net : LocalNetwork) (nm : String)
    (hs : net.stopped = false) (hm : nm ∉ nodeNames net) :
    removeNode net nm = Except.error (NetErr.notFound nm) := by
  simp only [removeNode, hs, Bool.false_eq_true, if_false]
  have hany : net.nodes.any (fun h => h.name == nm) = false := by
    rw [List.any_eq_false]
    intro x hx
    simp only [beq_iff_eq]
    intro he
    exact hm (List.mem_map.mpr ⟨x, hx, he⟩)
  rw [hany]
  rfl

theorem removeNode_mem (net : LocalNetwork) (nm : String)
    (hs : net.stopped = false) (hm : nm ∈ nodeNames net) :
    removeNode net nm =
      Except.ok { net with nodes := net.nodes.filter (fun h => h.name != nm) } := by
  simp only [removeNode, hs, Bool.false_eq_true, if_false]
  have hany : net.nodes.any (fun h => h.name == nm) = true := by
    obtain ⟨x, hx, he⟩ := List.mem_map.mp hm
    exact List.any_eq_true.mpr ⟨x, hx, by simp [he]⟩
  rw [hany]
  rfl

theorem not_mem_nodeNames_filter (net : LocalNetwork) (nm : String) :
    nm ∉ nodeNames { net with nodes := net.nodes.filter (fun h => h.name != nm) } := by
  intro hmem
  obtain ⟨x, hx, he⟩ := List.mem_map.mp hmem
  have hkeep := (List.mem_filter.mp hx).2
  simp [he] at hkeep

theorem addNode_ok (net : LocalNetwork) (apiF : ApiF) (procF : ProcF) (c : NodeConfig)
    (hs : net.stopped = false) (hv : nodeConfigError c = none)
    (hn : c.name.isEmpty = false) (hm : c.name ∉ nodeNames net)
    (hp : procF c = Except.ok ()) :
    addNode net apiF procF c =
      Except.ok ({ net with nodes := net.nodes ++
                    [{ name := c.name, config := c, health := apiF c }] },
                 { name := c.name, config := c, health := apiF c }) := by
  simp only [addNode, hs, Bool.false_eq_true, if_false, hv, hn, hp]
  simp [hm]

theorem stop_ok_state {net net' : LocalNetwork} (h : stop net = Except.ok net') :
    net' = { net with nodes := [], stopped := true } := by
  by_cases hs : net.stopped
  · simp [stop, hs] at h
  · simp [stop, hs] at h
    exact h.symm

theorem buildNodes_error (apiF : ApiF) (procF : ProcF) :
    ∀ (pairs : List (NodeConfig × String)) (net : LocalNetwork)
      (p : NodeConfig × String), p ∈ pairs →
      ∀ m, procF p.1 = Except.error m →
        exceptIsOk (buildNodes apiF procF net pairs).1 = false := by
  intro pairs
  induction pairs with
  | nil => intro net p hp; cases hp
  | cons q rest ih =>
    intro net p hp m hf
    obtain ⟨c, nm⟩ := q
    rcases List.mem_cons.mp hp with h1 | h2
    · subst h1
      simp only [buildNodes, hf]
      rfl
    · cases hq : procF c with
      | error m2 =>
        simp only [buildNodes, hq]
        rfl
      | ok u =>
        simp only [buildNodes, hq]
        exact ih _ p h2 m hf

theorem nodeConfigError_none {c : NodeConfig} (h : nodeConfigError c = none) :
    recognizedPayload c.implSpecificConfig = true ∧ oneSidedStaking c = false ∧
      certWellFormed c.stakingCert = true := by
  unfold nodeConfigError at h
  by_cases p1 : recognizedPayload c.implSpecificConfig <;>
    by_cases p2 : oneSidedStaking c <;>
      by_cases p3 : certWellFormed c.stakingCert <;>
        simp_all

theorem validator_none_no_violation (cfg : NetworkConfig)
    (hv : validateConfig cfg = none) : amendedRuleViolation cfg = false := by
  unfold validateConfig at hv
  by_cases h1 : cfg.genesis.isEmpty
  · rw [if_pos h1] at hv; cases hv
  · rw [if_neg h1] at hv
    by_cases h2 : cfg.nodeConfigs.any (fun c => (nodeConfigError c).isSome)
    · rw [if_pos h2] at hv; cases hv
    · rw [if_neg h2] at hv
      by_cases h3 : !cfg.nodeConfigs.isEmpty && !cfg.nodeConfigs.any (fun c => c.isBeacon)
      · rw [if_pos h3] at hv; cases hv
      · rw [if_neg h3] at hv
        by_cases h4 : hasDupNonemptyNames cfg.nodeConfigs
        · rw [if_pos h4] at hv; cases hv
        · have hnodes : ∀ c ∈ cfg.nodeConfigs, nodeConfigError c = none := by
            intro c hc
            have h2c := List.any_eq_false.mp (Bool.not_eq_true _ ▸ h2) c hc
            cases he : nodeConfigError c with
            | none => rfl
            | some m => rw [he] at h2c; simp at h2c
          have hb : cfg.nodeConfigs.any (fun c => !recognizedPayload c.implSpecificConfig) = false := by
            rw [List.any_eq_false]
            intro c hc
            have := (nodeConfigError_none (hnodes c hc)).1
            simp [this]
          have hc' : cfg.nodeConfigs.any oneSidedStaking = false := by
            rw [List.any_eq_false]
            intro c hc
            have := (nodeConfigError_none (hnodes c hc)).2.1
            simp [this]
          unfold amendedRuleViolation
          rw [Bool.not_eq_true] at h1 h4
          rw [hb, hc', h1, h4]
          have h3' : (!cfg.nodeConfigs.isEmpty && !cfg.nodeConfigs.any fun c => c.isBeacon) = false :=
            Bool.not_eq_true _ ▸ h3
          rw [h3']
          rfl

/-! Claim theorems. -/

/-- C1: once Stop has succeeded on a network, a second Stop returns the
distinguished stopped sentinel, and AddNode, GetNode, GetNodesNames,
RemoveNode and the health aggregator all return that same sentinel instead
of succeeding. -/
theorem stopped_network_all_ops_fail (net net' : LocalNetwork)
    (h : stop net = Except.ok net') (apiF : ApiF) (procF : ProcF)
    (c : NodeConfig) (nm : String) (ticks : Nat) :
    stop net' = Except.error NetErr.stopped ∧
    addNode net' apiF procF c = Except.error NetErr.stopped ∧
    getNode net' nm = Except.error NetErr.stopped ∧
    getNodesNames net' = Except.error NetErr.stopped ∧
    removeNode net' nm = Except.error NetErr.stopped ∧
    awaitNetworkHealthy net' ticks = Except.error NetErr.stopped := by
  have hs : net'.stopped = true := by rw [stop_ok_state h]
  refine ⟨?_, ?_, ?_, ?_, ?_, ?_⟩ <;>
    simp [stop, addNode, getNode, getNodesNames, removeNode, awaitNetworkHealthy, hs]

/-- Witness for C1: the claim instantiated at a concretely stopped
network. -/
theorem stopped_network_all_ops_fail_witness :
    stop { genesis := [1], nodes := [], stopped := true } = Except.error NetErr.stopped ∧
    addNode { genesis := [1], nodes := [], stopped := true } apiHealthy procOk cfg0 =
      Except.error NetErr.stopped ∧
    getNode { genesis := [1], nodes := [], stopped := true } "node0" =
      Except.error NetErr.stopped ∧
    getNodesNames { genesis := [1], nodes := [], stopped := true } =
      Except.error NetErr.stopped ∧
    removeNode { genesis := [1], nodes := [], stopped := true } "node0" =
      Except.error NetErr.stopped ∧
    awaitNetworkHealthy { genesis := [1], nodes := [], stopped := true } 3 =
      Except.error NetErr.stopped :=
  stopped_network_all_ops_fail (emptyNet [1])
    { genesis := [1], nodes := [], stopped := true } rfl apiHealthy procOk cfg0 "node0" 3

/-- C2 counterexample: the configuration with a non-empty genesis and no
node configurations has no NodeConfig with IsBeacon true, hence violates the
rule list exactly as the claim words it, yet NewNetwork succeeds on it (the
test suite itself builds such empty networks), so the claim as stated fails
at this input. -/
theorem beacon_rule_counterexample :
    claimedRuleViolation { genesis := [1], logLevel := "", name := "", nodeConfigs := [] } = true ∧
    (NewNetwork { genesis := [1], logLevel := "", name := "", nodeConfigs := [] }
        apiHealthy procOk).1 = Except.ok (emptyNet [1]) :=
  ⟨rfl, rfl⟩

/-- C2 amended: for every configuration violating a validator rule — empty
genesis, absent or unrecognized implementation-specific payload, one-sided
staking material, a non-empty node list without a beacon node, or two
entries sharing a non-empty name — NewNetwork fails and hands no
configuration to the process factory, so no process is started. -/
theorem amended_invalid_config_fails (cfg : NetworkConfig) (apiF : ApiF)
    (procF : ProcF) (h : amendedRuleViolation cfg = true) :
    exceptIsOk (NewNetwork cfg apiF procF).1 = false ∧
    (NewNetwork cfg apiF procF).2 = [] := by
  cases hval : validateConfig cfg with
  | some m => constructor <;> simp [NewNetwork, hval, exceptIsOk]
  | none =>
    rw [validator_none_no_violation cfg hval] at h
    cases h

/-- Witness for C2 amended: a configuration with an empty genesis is
rejected and no process start is attempted. -/
theorem amended_invalid_config_fails_witness :
    amendedRuleViolation { genesis := [], logLevel := "", name := "", nodeConfigs := [] } = true ∧
    (exceptIsOk (NewNetwork { genesis := [], logLevel := "", name := "", nodeConfigs := [] }
        apiHealthy procOk).1 = false ∧
     (NewNetwork { genesis := [], logLevel := "", name := "", nodeConfigs := [] }
        apiHealthy procOk).2 = []) :=
  ⟨by decide, amended_invalid_config_fails _ apiHealthy procOk (by decide)⟩

/-- C3: if the process factory fails to start some node of the
configuration, NewNetwork fails as a whole and no network object is
returned. -/
theorem start_failure_fails_construction (cfg : NetworkConfig) (apiF : ApiF)
    (procF : ProcF) (c : NodeConfig) (hc : c ∈ cfg.nodeConfigs) (m : String)
    (hf : procF c = Except.error m) :
    exceptIsOk (NewNetwork cfg apiF procF).1 = false := by
  cases hval : validateConfig cfg with
  | some m2 => simp [NewNetwork, hval, exceptIsOk]
  | none =>
    simp only [NewNetwork, hval]
    have hlen : cfg.nodeConfigs.length ≤ (resolveAll cfg.nodeConfigs).length :=
      le_of_eq (resolveAll_length cfg.nodeConfigs).symm
    have hcz : c ∈ (cfg.nodeConfigs.zip (resolveAll cfg.nodeConfigs)).map Prod.fst := by
      rw [List.map_fst_zip cfg.nodeConfigs (resolveAll cfg.nodeConfigs) hlen]
      exact hc
    obtain ⟨p, hpz, hp1⟩ := List.mem_map.mp hcz
    exact buildNodes_error apiF procF _ _ p hpz m (by rw [hp1]; exact hf)

/-- Witness for C3: the default three-node configuration with the factory
whose Start always fails. -/
theorem start_failure_fails_construction_witness :
    cfg0 ∈ netCfg3.nodeConfigs ∧
    procFailStart cfg0 = Except.error "Start failed" ∧
    exceptIsOk (NewNetwork netCfg3 apiHealthy procFailStart).1 = false :=
  ⟨by decide, rfl,
   start_failure_fails_construction netCfg3 apiHealthy procFailStart cfg0 (by decide)
     "Start failed" rfl⟩

/-- C5: on a running network, GetNode and RemoveNode on a name that is not
present fail with the not-found error; after a successful RemoveNode the
removed name is gone, so GetNode fails and a second RemoveNode of the same
name fails with not-found instead of silently succeeding. -/
theorem not_found_ops (net : LocalNetwork) (nm : String)
    (hs : net.stopped = false) :
    (nm ∉ nodeNames net →
      getNode net nm = Except.error (NetErr.notFound nm) ∧
      removeNode net nm = Except.error (NetErr.notFound nm)) ∧
    (nm ∈ nodeNames net →
      removeNode net nm = Except.ok (filteredNet net nm) ∧
      getNode (filteredNet net nm) nm = Except.error (NetErr.notFound nm) ∧
      removeNode (filteredNet net nm) nm = Except.error (NetErr.notFound nm)) := by
  constructor
  · intro hm
    exact ⟨getNode_not_mem net nm hs hm, removeNode_not_mem net nm hs hm⟩
  · intro hm
    have hsf : (filteredNet net nm).stopped = false := hs
    have hnm := not_mem_nodeNames_filter net nm
    exact ⟨removeNode_mem net nm hs hm, getNode_not_mem _ nm hsf hnm,
           removeNode_not_mem _ nm hsf hnm⟩

/-- Witness for C5: a running one-node network holding node0. -/
theorem not_found_ops_witness :
    netOne.stopped = false ∧
    (("node0" ∉ nodeNames netOne →
      getNode netOne "node0" = Except.error (NetErr.notFound "node0") ∧
      removeNode netOne "node0" = Except.error (NetErr.notFound "node0")) ∧
     ("node0" ∈ nodeNames netOne →
      removeNode netOne "node0" = Except.ok (filteredNet netOne "node0") ∧
      getNode (filteredNet netOne "node0") "node0" =
        Except.error (NetErr.notFound "node0") ∧
      removeNode (filteredNet netOne "node0") "node0" =
        Except.error (NetErr.notFound "node0"))) :=
  ⟨rfl, not_found_ops netOne "node0" rfl⟩

/-- C6: for every configuration accepted by the validator, with factories
that always succeed, construction succeeds, GetNodesNames returns exactly
one name per node configuration, and every configured (non-empty) name is
retrievable through GetNode. -/
theorem valid_config_constructs (cfg : NetworkConfig) (apiF : ApiF)
    (procF : ProcF) (hv : validateConfig cfg = none)
    (hp : ∀ c, procF c = Except.ok ()) :
    (NewNetwork cfg apiF procF).1 = Except.ok (builtNet cfg apiF) ∧
    getNodesNames (builtNet cfg apiF) = Except.ok (resolveAll cfg.nodeConfigs) ∧
    (resolveAll cfg.nodeConfigs).length = cfg.nodeConfigs.length ∧
    cfg.nodeConfigs.all
      (fun c => c.name.isEmpty ||
        exceptIsOk (getNode (builtNet cfg apiF) c.name)) = true := by
  have hsb : (builtNet cfg apiF).stopped = false := rfl
  refine ⟨?_, ?_, resolveAll_length cfg.nodeConfigs, ?_⟩
  · rw [newNetwork_ok cfg apiF procF hv hp]
  · simp only [getNodesNames, hsb, Bool.false_eq_true, if_false, nodeNames_builtNet]
  · rw [List.all_eq_true]
    intro c hc
    by_cases hn : c.name.isEmpty
    · simp [hn]
    · have hn' : c.name.isEmpty = false := Bool.not_eq_true _ ▸ hn
      have hmem : c.name ∈ nodeNames (builtNet cfg apiF) := by
        rw [nodeNames_builtNet]
        exact resolveNamesAux_given_mem hn' cfg.nodeConfigs hc (givenNames cfg.nodeConfigs)
      simp [getNode_mem_isOk (builtNet cfg apiF) c.name hsb hmem]

/-- Witness for C6: the default three-node configuration. -/
theorem valid_config_constructs_witness :
    validateConfig netCfg3 = none ∧
    ((NewNetwork netCfg3 apiHealthy procOk).1 = Except.ok (builtNet netCfg3 apiHealthy) ∧
     getNodesNames (builtNet netCfg3 apiHealthy) = Except.ok (resolveAll netCfg3.nodeConfigs) ∧
     (resolveAll netCfg3.nodeConfigs).length = netCfg3.nodeConfigs.length ∧
     netCfg3.nodeConfigs.all
       (fun c => c.name.isEmpty ||
         exceptIsOk (getNode (builtNet netCfg3 apiHealthy) c.name)) = true) :=
  ⟨rfl, valid_config_constructs netCfg3 apiHealthy procOk rfl (fun _ => rfl)⟩

/-- C7: for every validator-accepted configuration in which every node name
is empty, construction succeeds and auto-generates exactly one name per node
configuration, all pairwise distinct. -/
theorem generated_names_distinct (cfg : NetworkConfig) (apiF : ApiF)
    (procF : ProcF) (hv : validateConfig cfg = none)
    (hp : ∀ c, procF c = Except.ok ())
    (he : cfg.nodeConfigs.all (fun c => c.name.isEmpty) = true) :
    (NewNetwork cfg apiF procF).1 = Except.ok (builtNet cfg apiF) ∧
    getNodesNames (builtNet cfg apiF) = Except.ok (resolveAll cfg.nodeConfigs) ∧
    (resolveAll cfg.nodeConfigs).length = cfg.nodeConfigs.length ∧
    (resolveAll cfg.nodeConfigs).Nodup := by
  have hsb : (builtNet cfg apiF).stopped = false := rfl
  have he' : ∀ c ∈ cfg.nodeConfigs, c.name.isEmpty = true := List.all_eq_true.mp he
  refine ⟨?_, ?_, resolveAll_length cfg.nodeConfigs, ?_⟩
  · rw [newNetwork_ok cfg apiF procF hv hp]
  · simp only [getNodesNames, hsb, Bool.false_eq_true, if_false, nodeNames_builtNet]
  · exact (resolveNamesAux_allEmpty cfg.nodeConfigs he' (givenNames cfg.nodeConfigs)).1

/-- Witness for C7: the three-node configuration with all names empty. -/
theorem generated_names_distinct_witness :
    validateConfig netCfgE = none ∧
    netCfgE.nodeConfigs.all (fun c => c.name.isEmpty) = true ∧
    ((NewNetwork netCfgE apiHealthy procOk).1 = Except.ok (builtNet netCfgE apiHealthy) ∧
     getNodesNames (builtNet netCfgE apiHealthy) = Except.ok (resolveAll netCfgE.nodeConfigs) ∧
     (resolveAll netCfgE.nodeConfigs).length = netCfgE.nodeConfigs.length ∧
     (resolveAll netCfgE.nodeConfigs).Nodup) :=
  ⟨rfl, rfl, generated_names_distinct netCfgE apiHealthy procOk rfl (fun _ => rfl) rfl⟩

/-- C8 counterexample: on the network with no nodes, every node trivially
always reports unhealthy, yet the health aggregator succeeds immediately
instead of failing with a timeout error, so the claim as stated fails at the
empty running network. -/
theorem await_healthy_empty_counterexample :
    (emptyNet [1]).nodes = [] ∧ (emptyNet [1]).stopped = false ∧
    awaitNetworkHealthy (emptyNet [1]) 5 = Except.ok () :=
  ⟨rfl, rfl, rfl⟩

/-- C8 amended: on a running network with at least one node, none of whose
nodes ever reports healthy (unhealthy verdicts and transient per-poll errors
alike), the health aggregator fails with the timeout error once the tick
budget of the timeout is exhausted; per-poll errors are retried on the next
tick and never abort the wait by themselves. -/
theorem unhealthy_network_times_out (net : LocalNetwork) (ticks : Nat)
    (hs : net.stopped = false) (hne : net.nodes ≠ [])
    (hu : ∀ h ∈ net.nodes, ∀ t, h.health t ≠ Except.ok true) :
    awaitNetworkHealthy net ticks = Except.error NetErr.healthTimeout := by
  have hall : ∀ t, allHealthyAt net t = false := by
    intro t
    cases hn : net.nodes with
    | nil => exact absurd hn hne
    | cons a rest =>
      have ha := hu a (by rw [hn]; exact List.mem_cons_self a rest) t
      unfold allHealthyAt
      rw [hn, List.all_cons]
      cases hv : a.health t with
      | error m => simp
      | ok b =>
        cases b with
        | true => exact absurd hv ha
        | false => simp
  have haux : ∀ fuel t0, awaitHealthyAux net fuel t0 = Except.error NetErr.healthTimeout := by
    intro fuel
    induction fuel with
    | zero => intro t0; rfl
    | succ n ih =>
      intro t0
      simp only [awaitHealthyAux, hs, hall t0, Bool.false_eq_true, if_false]
      exact ih (t0 + 1)
  simp only [awaitNetworkHealthy, hs, Bool.false_eq_true, if_false]
  exact haux ticks 0

/-- Witness for C8 amended: the running one-node always-unhealthy network
times out. -/
theorem unhealthy_network_times_out_witness :
    netUnhealthy1.stopped = false ∧ netUnhealthy1.nodes ≠ [] ∧
    awaitNetworkHealthy netUnhealthy1 4 = Except.error NetErr.healthTimeout :=
  ⟨rfl, List.cons_ne_nil _ _,
   unhealthy_network_times_out netUnhealthy1 4 rfl (List.cons_ne_nil _ _)
     (fun h hm t => by
       simp only [netUnhealthy1, List.mem_singleton] at hm
       subst hm
       simp [mkHandle, apiUnhealthy])⟩

/-- C9: the NewNetwork function of the network package interface sketch
returns a nil network pointer and a nil error for every input, so it never
reports a failure and never yields a usable network object. -/
theorem sketch_new_network_nil (cfg : SketchConfig) (kinds : List (Nat × String)) :
    sketchNewNetwork cfg kinds = (none, none) :=
  rfl

/-- C10: during successful construction, the trace of NodeConfig values
handed to the process factory is exactly the caller's configured list,
unchanged and in order, and the constructed network stores the
configuration's genesis bytes. -/
theorem factory_receives_caller_configs (cfg : NetworkConfig) (apiF : ApiF)
    (procF : ProcF) (hv : validateConfig cfg = none)
    (hp : ∀ c, procF c = Except.ok ()) :
    NewNetwork cfg apiF procF = (Except.ok (builtNet cfg apiF), cfg.nodeConfigs) ∧
    (builtNet cfg apiF).genesis = cfg.genesis :=
  ⟨newNetwork_ok cfg apiF procF hv hp, rfl⟩

/-- C4: starting from an empty network, three successive AddNode calls each
grow the name list by exactly the added name, with every name added so far
retrievable via GetNode after each step; then three successive RemoveNode
calls each shrink it by exactly the removed name, with GetNode failing for
every removed name and succeeding for every remaining one after each
step. -/
theorem node_ops_sequence (g : Bytes) (c0 c1 c2 : NodeConfig) (apiF : ApiF)
    (procF : ProcF) (hp : ∀ c, procF c = Except.ok ())
    (hv0 : nodeConfigError c0 = none) (hv1 : nodeConfigError c1 = none)
    (hv2 : nodeConfigError c2 = none)
    (hn0 : c0.name.isEmpty = false) (hn1 : c1.name.isEmpty = false)
    (hn2 : c2.name.isEmpty = false)
    (hd01 : c0.name ≠ c1.name) (hd02 : c0.name ≠ c2.name)
    (hd12 : c1.name ≠ c2.name) :
    addNodeNet (emptyNet g) apiF procF c0 = Except.ok (stage1 g c0 apiF) ∧
    getNodesNames (stage1 g c0 apiF) = Except.ok [c0.name] ∧
    exceptIsOk (getNode (stage1 g c0 apiF) c0.name) = true ∧
    addNodeNet (stage1 g c0 apiF) apiF procF c1 = Except.ok (stage2 g c0 c1 apiF) ∧
    getNodesNames (stage2 g c0 c1 apiF) = Except.ok [c0.name, c1.name] ∧
    exceptIsOk (getNode (stage2 g c0 c1 apiF) c0.name) = true ∧
    exceptIsOk (getNode (stage2 g c0 c1 apiF) c1.name) = true ∧
    addNodeNet (stage2 g c0 c1 apiF) apiF procF c2 = Except.ok (stage3 g c0 c1 c2 apiF) ∧
    getNodesNames (stage3 g c0 c1 c2 apiF) = Except.ok [c0.name, c1.name, c2.name] ∧
    exceptIsOk (getNode (stage3 g c0 c1 c2 apiF) c0.name) = true ∧
    exceptIsOk (getNode (stage3 g c0 c1 c2 apiF) c1.name) = true ∧
    exceptIsOk (getNode (stage3 g c0 c1 c2 apiF) c2.name) = true ∧
    removeNode (stage3 g c0 c1 c2 apiF) c0.name = Except.ok (stage4 g c1 c2 apiF) ∧
    getNodesNames (stage4 g c1 c2 apiF) = Except.ok [c1.name, c2.name] ∧
    getNode (stage4 g c1 c2 apiF) c0.name = Except.error (NetErr.notFound c0.name) ∧
    exceptIsOk (getNode (stage4 g c1 c2 apiF) c1.name) = true ∧
    exceptIsOk (getNode (stage4 g c1 c2 apiF) c2.name) = true ∧
    removeNode (stage4 g c1 c2 apiF) c1.name = Except.ok (stage5 g c2 apiF) ∧
    getNodesNames (stage5 g c2 apiF) = Except.ok [c2.name] ∧
    getNode (stage5 g c2 apiF) c0.name = Except.error (NetErr.notFound c0.name) ∧
    getNode (stage5 g c2 apiF) c1.name = Except.error (NetErr.notFound c1.name) ∧
    exceptIsOk (getNode (stage5 g c2 apiF) c2.name) = true ∧
    removeNode (stage5 g c2 apiF) c2.name = Except.ok (emptyNet g) ∧
    getNodesNames (emptyNet g) = Except.ok [] ∧
    getNode (emptyNet g) c0.name = Except.error (NetErr.notFound c0.name) ∧
    getNode (emptyNet g) c1.name = Except.error (NetErr.notFound c1.name) ∧
    getNode (emptyNet g) c2.name = Except.error (NetErr.notFound c2.name) := by
  have names0 : nodeNames (emptyNet g) = [] := rfl
  have names1 : nodeNames (stage1 g c0 apiF) = [c0.name] := rfl
  have names2 : nodeNames (stage2 g c0 c1 apiF) = [c0.name, c1.name] := rfl
  have names3 : nodeNames (stage3 g c0 c1 c2 apiF) = [c0.name, c1.name, c2.name] := rfl
  have names4 : nodeNames (stage4 g c1 c2 apiF) = [c1.name, c2.name] := rfl
  have names5 : nodeNames (stage5 g c2 apiF) = [c2.name] := rfl
  have A0 : addNodeNet (emptyNet g) apiF procF c0 = Except.ok (stage1 g c0 apiF) := by
    unfold addNodeNet
    rw [addNode_ok (emptyNet g) apiF procF c0 rfl hv0 hn0
      (by rw [names0]; exact List.not_mem_nil _) (hp c0)]
    rfl
  have A1 : addNodeNet (stage1 g c0 apiF) apiF procF c1 = Except.ok (stage2 g c0 c1 apiF) := by
    unfold addNodeNet
    rw [addNode_ok (stage1 g c0 apiF) apiF procF c1 rfl hv1 hn1
      (by rw [names1, List.mem_singleton]; exact Ne.symm hd01) (hp c1)]
    rfl
  have A2 : addNodeNet (stage2 g c0 c1 apiF) apiF procF c2 = Except.ok (stage3 g c0 c1 c2 apiF) := by
    unfold addNodeNet
    rw [addNode_ok (stage2 g c0 c1 apiF) apiF procF c2 rfl hv2 hn2
      (by rw [names2]; simp [not_or]; exact ⟨Ne.symm hd02, Ne.symm hd12⟩) (hp c2)]
    rfl
  have R0 : removeNode (stage3 g c0 c1 c2 apiF) c0.name = Except.ok (stage4 g c1 c2 apiF) := by
    rw [removeNode_mem _ _ rfl (by rw [names3]; exact List.mem_cons_self _ _)]
    simp [stage3, stage4, mkHandle, List.filter_cons, bne_iff_ne, Ne.symm hd01, Ne.symm hd02]
  have R1 : removeNode (stage4 g c1 c2 apiF) c1.name = Except.ok (stage5 g c2 apiF) := by
    rw [removeNode_mem _ _ rfl (by rw [names4]; exact List.mem_cons_self _ _)]
    simp [stage4, stage5, mkHandle, List.filter_cons, bne_iff_ne, Ne.symm hd12]
  have R2 : removeNode (stage5 g c2 apiF) c2.name = Except.ok (emptyNet g) := by
    rw [removeNode_mem _ _ rfl (by rw [names5]; exact List.mem_cons_self _ _)]
    simp [stage5, emptyNet, mkHandle, List.filter_cons]
  refine ⟨A0, rfl, ?_, A1, rfl, ?_, ?_, A2, rfl, ?_, ?_, ?_, R0, rfl, ?_, ?_, ?_,
    R1, rfl, ?_, ?_, ?_, R2, rfl, ?_, ?_, ?_⟩
  · exact getNode_mem_isOk _ _ rfl (by rw [names1]; exact List.mem_singleton.mpr rfl)
  · exact getNode_mem_isOk _ _ rfl (by rw [names2]; exact List.mem_cons_self _ _)
  · exact getNode_mem_isOk _ _ rfl (by rw [names2]; simp)
  · exact getNode_mem_isOk _ _ rfl (by rw [names3]; exact List.mem_cons_self _ _)
  · exact getNode_mem_isOk _ _ rfl (by rw [names3]; simp)
  · exact getNode_mem_isOk _ _ rfl (by rw [names3]; simp)
  · exact getNode_not_mem _ _ rfl (by rw [names4]; simp [not_or]; exact ⟨hd01, hd02⟩)
  · exact getNode_mem_isOk _ _ rfl (by rw [names4]; exact List.mem_cons_self _ _)
  · exact getNode_mem_isOk _ _ rfl (by rw [names4]; simp)
  · exact getNode_not_mem _ _ rfl (by rw [names5, List.mem_singleton]; exact hd02)
  · exact getNode_not_mem _ _ rfl (by rw [names5, List.mem_singleton]; exact hd12)
  · exact getNode_mem_isOk _ _ rfl (by rw [names5]; exact List.mem_singleton.mpr rfl)
  · exact getNode_not_mem _ _ rfl (by rw [names0]; exact List.not_mem_nil _)
  · exact getNode_not_mem _ _ rfl (by rw [names0]; exact List.not_mem_nil _)
  · exact getNode_not_mem _ _ rfl (by rw [names0]; exact List.not_mem_nil _)

/-- Witness for C4: the three named fixture configurations added to and
removed from an initially empty network one by one. -/
theorem node_ops_sequence_witness :
    addNodeNet (emptyNet [7]) apiHealthy procOk cfg0 = Except.ok (stage1 [7] cfg0 apiHealthy) ∧
    getNodesNames (stage1 [7] cfg0 apiHealthy) = Except.ok [cfg0.name] ∧
    exceptIsOk (getNode (stage1 [7] cfg0 apiHealthy) cfg0.name) = true ∧
    addNodeNet (stage1 [7] cfg0 apiHealthy) apiHealthy procOk cfg1 =
      Except.ok (stage2 [7] cfg0 cfg1 apiHealthy) ∧
    getNodesNames (stage2 [7] cfg0 cfg1 apiHealthy) = Except.ok [cfg0.name, cfg1.name] ∧
    exceptIsOk (getNode (stage2 [7] cfg0 cfg1 apiHealthy) cfg0.name) = true ∧
    exceptIsOk (getNode (stage2 [7] cfg0 cfg1 apiHealthy) cfg1.name) = true ∧
    addNodeNet (stage2 [7] cfg0 cfg1 apiHealthy) apiHealthy procOk cfg2 =
      Except.ok (stage3 [7] cfg0 cfg1 cfg2 apiHealthy) ∧
    getNodesNames (stage3 [7] cfg0 cfg1 cfg2 apiHealthy) =
      Except.ok [cfg0.name, cfg1.name, cfg2.name] ∧
    exceptIsOk (getNode (stage3 [7] cfg0 cfg1 cfg2 apiHealthy) cfg0.name) = true ∧
    exceptIsOk (getNode (stage3 [7] cfg0 cfg1 cfg2 apiHealthy) cfg1.name) = true ∧
    exceptIsOk (getNode (stage3 [7] cfg0 cfg1 cfg2 apiHealthy) cfg2.name) = true ∧
    removeNode (stage3 [7] cfg0 cfg1 cfg2 apiHealthy) cfg0.name =
      Except.ok (stage4 [7] cfg1 cfg2 apiHealthy) ∧
    getNodesNames (stage4 [7] cfg1 cfg2 apiHealthy) = Except.ok [cfg1.name, cfg2.name] ∧
    getNode (stage4 [7] cfg1 cfg2 apiHealthy) cfg0.name =
      Except.error (NetErr.notFound cfg0.name) ∧
    exceptIsOk (getNode (stage4 [7] cfg1 cfg2 apiHealthy) cfg1.name) = true ∧
    exceptIsOk (getNode (stage4 [7] cfg1 cfg2 apiHealthy) cfg2.name) = true ∧
    removeNode (stage4 [7] cfg1 cfg2 apiHealthy) cfg1.name =
      Except.ok (stage5 [7] cfg2 apiHealthy) ∧
    getNodesNames (stage5 [7] cfg2 apiHealthy) = Except.ok [cfg2.name] ∧
    getNode (stage5 [7] cfg2 apiHealthy) cfg0.name =
      Except.error (NetErr.notFound cfg0.name) ∧
    getNode (stage5 [7] cfg2 apiHealthy) cfg1.name =
      Except.error (NetErr.notFound cfg1.name) ∧
    exceptIsOk (getNode (stage5 [7] cfg2 apiHealthy) cfg2.name) = true ∧
    removeNode (stage5 [7] cfg2 apiHealthy) cfg2.name = Except.ok (emptyNet [7]) ∧
    getNodesNames (emptyNet [7]) = Except.ok [] ∧
    getNode (emptyNet [7]) cfg0.name = Except.error (NetErr.notFound cfg0.name) ∧
    getNode (emptyNet [7]) cfg1.name = Except.error (NetErr.notFound cfg1.name) ∧
    getNode (emptyNet [7]) cfg2.name = Except.error (NetErr.notFound cfg2.name) :=
  node_ops_sequence [7] cfg0 cfg1 cfg2 apiHealthy procOk (fun _ => rfl)
    rfl rfl rfl rfl rfl rfl (by decide) (by decide) (by decide)

/-- Witness for C10: the default three-node configuration. -/
theorem factory_receives_caller_configs_witness :
    validateConfig netCfg3 = none ∧
    (NewNetwork netCfg3 apiHealthy procOk = (Except.ok (builtNet netCfg3 apiHealthy), netCfg3.nodeConfigs) ∧
     (builtNet netCfg3 apiHealthy).genesis = netCfg3.genesis) :=
  ⟨rfl, factory_receives_caller_configs netCfg3 apiHealthy procOk rfl (fun _ => rfl)⟩

end Anr
